import Mathlib

/-!
Verification of the knowledge-app backend (FastAPI + RAG pipeline).

This file gives a shallow embedding, in Lean 4, of the parts of the
repository that the frozen claims are about:

* the sentence-respecting chunker `split_text` and the character chunker
  (`backend/app/services/rag_service.py`);
* cosine similarity `_cosine` and chunk retrieval `retrieve_relevant_chunks`
  (same file), with floats idealised as real numbers;
* the provider registry `get_provider` / `switch_provider` / `_build_provider`
  (`backend/app/services/providers/__init__.py`) and the
  `/api/providers/switch` router (`backend/app/routers/providers.py`);
* the cache key and cache helpers (`backend/app/database.py`) and the
  `/api/ask` endpoint (`backend/app/routers/ask.py`);
* the markdown-fence-stripping JSON recovery `_parse_json_response` and the
  truncation logic of the summarize/highlights endpoints
  (`backend/app/routers/highlights.py`, `backend/app/routers/summarize.py`).

Python strings are modelled as `List Char` where character-exact behaviour
matters (chunking, regex-like scanning, JSON parsing) and as `String`
elsewhere.  Stateful module-level globals (the registry singletons, the SQLite
cache) are modelled by explicit state passing; Python exceptions by
`Except`/`Option` results.  SHA-256 is modelled by an arbitrary function
parameter `hash : String → String`, since every claim about the cache only
needs the digest to be a (deterministic) function of its input string.
-/

/- ──────────────────────────────────────────────────────────────────────
   Python string helpers (ASCII whitespace model of `str.strip`, `\s`)
   ────────────────────────────────────────────────────────────────────── -/

/-- Python `\s` / `str.strip` whitespace class (ASCII part: space, tab,
newline, carriage return, form feed, vertical tab). -/
def isPySpace (c : Char) : Bool :=
  c = ' ' || c = '\t' || c = '\n' || c = '\r' || c = '\x0c' || c = '\x0b'

/-- Python `str.strip()` on a character list: drop leading and trailing
whitespace. -/
def pyStrip (cs : List Char) : List Char :=
  ((cs.dropWhile isPySpace).reverse.dropWhile isPySpace).reverse

/-- Python `str.strip()` on a `String`. -/
def pyStripS (s : String) : String := ⟨pyStrip s.data⟩

/- ──────────────────────────────────────────────────────────────────────
   Chunker: `rag_service.split_text` and `rag_service.split_text_chars`
   ────────────────────────────────────────────────────────────────────── -/

/-- One step of `re.split(r'(?<=[.!?])\s+', ...)`: is this a sentence-ending
character? -/
def isSentEnd (c : Char) : Bool := c = '.' || c = '!' || c = '?'

/-- Whether the list starts with a whitespace character (the `\s+` part of
the sentence-boundary pattern must match at least one character). -/
def headIsSpace : List Char → Bool
  | [] => false
  | c :: _ => isPySpace c

/-- Worker for `re.split(r'(?<=[.!?])\s+', text)`: scan the text, and cut at
every maximal whitespace run that is preceded by `.`, `!` or `?`.  `acc` holds
the current sentence reversed; `fuel` bounds the recursion (any
`fuel ≥ cs.length` is enough, since every step consumes at least one
character; the fuel-exhausted branch is unreachable then). -/
def splitSentencesGo : Nat → List Char → List Char → List (List Char)
  | 0, acc, _ => [acc.reverse]
  | _ + 1, acc, [] => [acc.reverse]
  | fuel + 1, acc, c :: rest =>
    if isSentEnd c && headIsSpace rest then
      (acc.reverse ++ [c]) :: splitSentencesGo fuel [] (rest.dropWhile isPySpace)
    else
      splitSentencesGo fuel (c :: acc) rest

/-- `re.split(r'(?<=[.!?])\s+', text)` — like `re.split`, always returns at
least one (possibly empty) piece. -/
def splitSentences (cs : List Char) : List (List Char) :=
  splitSentencesGo cs.length [] cs

/-- Python `' '.join(current_chunk)`. -/
def joinSp (ss : List (List Char)) : List Char := List.intercalate [' '] ss

/-- The overlap loop of `split_text`: walk `reversed(current_chunk)`,
prepending sentences while the accumulated length stays `≤ overlap`, and stop
at the first sentence that does not fit.  Returns the collected
`overlap_chunk` together with its `overlap_len`. -/
def overlapTailGo (overlap : Nat) :
    List (List Char) → Nat → List (List Char) → List (List Char) × Nat
  | [], olen, acc => (acc, olen)
  | s :: rest, olen, acc =>
    if olen + s.length ≤ overlap then
      overlapTailGo overlap rest (olen + s.length) (s :: acc)
    else
      (acc, olen)

/-- `overlap_chunk` / `overlap_len` computation of `split_text`. -/
def overlapTail (cur : List (List Char)) (overlap : Nat) :
    List (List Char) × Nat :=
  overlapTailGo overlap cur.reverse 0 []

/-- Loop state of `split_text`: the finished `chunks` (already
`' '`-joined, as Python appends them), the `current_chunk` sentence list and
`current_len`. -/
structure SplitSt where
  chunks : List (List Char)
  cur : List (List Char)
  curLen : Nat
deriving DecidableEq

/-- One iteration of the `for sentence in sentences` loop of `split_text`. -/
def splitStep (chunk_size overlap : Nat) (st : SplitSt) (sentence : List Char) :
    SplitSt :=
  let st :=
    if chunk_size < st.curLen + sentence.length ∧ st.cur ≠ [] then
      let ov := overlapTail st.cur overlap
      { chunks := st.chunks ++ [joinSp st.cur], cur := ov.1, curLen := ov.2 }
    else st
  { st with cur := st.cur ++ [sentence], curLen := st.curLen + sentence.length }

/-- `rag_service.split_text(text, chunk_size, overlap)`: split into chunks
that respect sentence boundaries. -/
def split_text (text : List Char) (chunk_size overlap : Nat) :
    List (List Char) :=
  if text = [] then []
  else
    let sentences := splitSentences (pyStrip text)
    let st := sentences.foldl (splitStep chunk_size overlap) ⟨[], [], 0⟩
    let chunks := if st.cur ≠ [] then st.chunks ++ [joinSp st.cur] else st.chunks
    if chunks = [] then [text] else chunks

/-- Instrumented loop state: like `SplitSt` but each finished chunk is kept
as its sentence list paired with the number of overlap sentences carried in
from the previous chunk, and `curOv` counts the overlap sentences at the head
of `current_chunk`.  Projecting with `joinSp ∘ Prod.fst` recovers `SplitSt`
(proved below). -/
structure SplitStI where
  chunks : List (List (List Char) × Nat)
  cur : List (List Char)
  curLen : Nat
  curOv : Nat
deriving DecidableEq

/-- Instrumented version of `splitStep`. -/
def splitStepI (chunk_size overlap : Nat) (st : SplitStI) (sentence : List Char) :
    SplitStI :=
  let st :=
    if chunk_size < st.curLen + sentence.length ∧ st.cur ≠ [] then
      let ov := overlapTail st.cur overlap
      { chunks := st.chunks ++ [(st.cur, st.curOv)], cur := ov.1,
        curLen := ov.2, curOv := ov.1.length }
    else st
  { st with cur := st.cur ++ [sentence], curLen := st.curLen + sentence.length }

/-- Instrumented `split_text`: the chunks as sentence lists, each paired with
how many of its leading sentences are overlap repeats of the previous chunk. -/
def splitTextInstr (text : List Char) (chunk_size overlap : Nat) :
    List (List (List Char) × Nat) :=
  let sentences := splitSentences (pyStrip text)
  let st := sentences.foldl (splitStepI chunk_size overlap) ⟨[], [], 0, 0⟩
  if st.cur ≠ [] then st.chunks ++ [(st.cur, st.curOv)] else st.chunks

/-- Concatenation of the chunks with the overlapping heads removed: from each
chunk drop the sentences carried in as overlap, then concatenate. -/
def reconstr (l : List (List (List Char) × Nat)) : List (List Char) :=
  (l.map (fun p => p.1.drop p.2)).flatten

/- ──────────────────────────────────────────────────────────────────────
   Cosine similarity and retrieval (`rag_service._cosine`,
   `rag_service.retrieve_relevant_chunks`)
   ────────────────────────────────────────────────────────────────────── -/

/-- Sum of squares of a vector's entries (`sum(x * x for x in a)`). -/
def sumSq (a : List ℝ) : ℝ := (a.map (fun x => x * x)).sum

/-- `rag_service._cosine(a, b)`: `dot / (norm_a * norm_b)`, and `0.0` when
either norm is zero.  Python floats are idealised as real numbers; `zip`
truncates to the shorter vector exactly as in Python. -/
noncomputable def _cosine (a b : List ℝ) : ℝ :=
  let dot := (List.zipWith (· * ·) a b).sum
  let norm_a := Real.sqrt (sumSq a)
  let norm_b := Real.sqrt (sumSq b)
  if norm_a = 0 ∨ norm_b = 0 then 0 else dot / (norm_a * norm_b)

/-- The `rag` section of `config.yaml` (`config.RAGConfig`). -/
structure RAGConfig where
  chunk_size : Nat
  chunk_overlap : Nat
  top_k : Nat
  embedding_model : String
deriving DecidableEq

/-- A row of `document_chunks` as returned by `db.get_document_chunks`
(ordered by `chunk_index`; only the fields retrieval reads). -/
structure ChunkRow where
  chunk_index : Nat
  content : String
deriving DecidableEq

/-- The stored data `retrieve_relevant_chunks` reads for one document:
`db.get_document_chunks(doc_id)` (ordered by `chunk_index`) and
`db.get_embeddings_for_doc(doc_id)`, a list of
`(chunk_id, content, embedding)` rows, also ordered by `chunk_index`. -/
structure DocStore where
  chunks : List ChunkRow
  embRows : List (Nat × String × List ℝ)

/-- Python `k = top_k or cfg.top_k`: `None` and `0` both fall back to the
configured default. -/
def resolveTopK (cfg : RAGConfig) : Option Nat → Nat
  | none => cfg.top_k
  | some n => if n = 0 then cfg.top_k else n

/-- The scored list built by `retrieve_relevant_chunks`:
`[(content, _cosine(q_vec, emb)) for (_, content, emb) in stored]`. -/
noncomputable def scoredOf (qv : List ℝ) (stored : List (Nat × String × List ℝ)) :
    List (String × ℝ) :=
  stored.map (fun r => (r.2.1, _cosine qv r.2.2))

/-- The comparison `scored.sort(key=lambda x: x[1], reverse=True)` sorts by:
`a` precedes `b` iff `a`'s score is at least `b`'s.  Python's sort is stable;
it is modelled by Mathlib's stable `List.insertionSort` with this relation. -/
def descBySnd (a b : String × ℝ) : Prop := b.2 ≤ a.2

noncomputable instance : DecidableRel descBySnd :=
  fun a b => Real.decidableLE b.2 a.2

/-- `rag_service.retrieve_relevant_chunks(doc_id, question, top_k)`.
The database contents for the document are passed explicitly as `db`; the
query-embedding step `embed_texts([question])` is passed as its result
`qEmb` (`none` models the embedding backend being unavailable). -/
noncomputable def retrieve_relevant_chunks (cfg : RAGConfig) (db : DocStore)
    (qEmb : Option (List ℝ)) (top_k : Option Nat) : List String :=
  let k := resolveTopK cfg top_k
  match db.embRows with
  | [] => (db.chunks.take k).map (·.content)
  | _ :: _ =>
    match qEmb with
    | none => (db.chunks.take k).map (·.content)
    | some q_vec =>
      let scored := scoredOf q_vec db.embRows
      ((List.insertionSort descBySnd scored).take k).map Prod.fst

/- ──────────────────────────────────────────────────────────────────────
   Substring checking (used to state what an error message "lists")
   ────────────────────────────────────────────────────────────────────── -/

/-- Does `hay` start with `needle`? -/
def leadMatch : List Char → List Char → Bool
  | [], _ => true
  | _ :: _, [] => false
  | a :: as, b :: bs => a = b && leadMatch as bs

/-- Does `needle` occur contiguously anywhere in `hay`? -/
def hasSub (needle : List Char) : List Char → Bool
  | [] => leadMatch needle []
  | c :: rest => leadMatch needle (c :: rest) || hasSub needle rest

/-- Substring test on `String`s. -/
def strContainsB (hay needle : String) : Bool := hasSub needle.data hay.data

/-- Code-point comparison of strings, as Python compares them in `sorted`. -/
def charsLe : List Char → List Char → Bool
  | [], _ => true
  | _ :: _, [] => false
  | a :: as, b :: bs => if a = b then charsLe as bs else decide (a < b)

/-- Stable insertion of a string into a sorted list (worker of `sortStrs`). -/
def insStr (x : String) : List String → List String
  | [] => [x]
  | y :: ys => if charsLe x.data y.data then x :: y :: ys else y :: insStr x ys

/-- Python `sorted` on a list of strings. -/
def sortStrs : List String → List String
  | [] => []
  | x :: xs => insStr x (sortStrs xs)

/-- Comma-and-space separation of character lists (Python `", ".join`). -/
def commaSep : List (List Char) → List Char
  | [] => []
  | [x] => x
  | x :: y :: t => x ++ ", ".data ++ commaSep (y :: t)

/-- Python `repr` of one string inside a list repr: `'s'`. -/
def pyQuote (s : String) : List Char := '\x27' :: s.data ++ ['\x27']

/-- Python `repr` of a list of strings, as an f-string interpolates it:
`['a', 'b', ...]`. -/
def pyListRepr (l : List String) : String :=
  ⟨'[' :: commaSep (l.map pyQuote) ++ [']']⟩

/- ──────────────────────────────────────────────────────────────────────
   Configuration (`config.py`) and provider adapters
   (`services/providers/*.py`)
   ────────────────────────────────────────────────────────────────────── -/

/-- `config.ProviderConfig`: one entry of the `providers` mapping. -/
structure ProviderConfig where
  enabled : Bool
  base_url : String
  api_key : String
  default_model : String
  timeout : Nat
  organization : String
deriving DecidableEq

/-- `config.GenerationConfig` (floats idealised as rationals). -/
structure GenerationConfig where
  temperature : ℚ
  max_tokens : Nat
  top_p : ℚ
deriving DecidableEq

/-- `config.LLMConfig` — exactly the fields the v2 `config.py` declares:
`default_provider`, `generation` and the `providers` dict (an association
list keyed by provider name).  In particular there is NO `ollama` attribute:
`LLMConfig` is a pydantic-v2 model that ignores extra keys, so the v1-style
read `settings.llm.ollama` performed by `database.cache_key` raises
`AttributeError` at runtime (modelled where that read occurs). -/
structure LLMConfig where
  default_provider : String
  generation : GenerationConfig
  providers : List (String × ProviderConfig)
deriving DecidableEq

/-- `config.Settings` (the sections the modelled code reads). -/
structure Settings where
  llm : LLMConfig
  rag : RAGConfig
deriving DecidableEq

/-- First-match association-list lookup (Python `dict.get` for the dicts the
code builds; insertion below prepends, giving last-write-wins semantics). -/
def lookupA {α : Type} : List (String × α) → String → Option α
  | [], _ => none
  | (k, v) :: t, key => if k = key then some v else lookupA t key

/-- The concrete adapter classes (`OllamaProvider`, `OpenAICompatibleProvider`,
`OpenAIProvider`, `AnthropicProvider`, `TextGenWebUIProvider`). -/
inductive ProviderKind where
  | ollama
  | openaiCompatible
  | openai
  | anthropic
  | textGenWebUI
deriving DecidableEq

/-- An adapter instance: the fields the constructors store on `self`.
Fields a given adapter class does not store are left `""`.  Adapters are
immutable values in this embedding — mirroring that nothing in the Python
code ever writes an adapter's attributes after `__init__`. -/
structure LLMProvider where
  kind : ProviderKind
  provider_key : String
  base_url : String
  model : String
  api_key : String
  timeout : Nat
  generation : GenerationConfig
  organization : String
deriving DecidableEq

/-- The `provider_name` property of each adapter class. -/
def provider_name (p : LLMProvider) : String :=
  match p.kind with
  | .ollama => "ollama"
  | .openaiCompatible => p.provider_key
  | .openai => "openai"
  | .anthropic => "anthropic"
  | .textGenWebUI => "text_generation_webui"

/-- The `active_model` property of each adapter class (`self._model`). -/
def active_model (p : LLMProvider) : String := p.model

/-- Python `base_url.rstrip("/")` done by the adapter constructors. -/
def rstripSlash (u : String) : String :=
  ⟨(u.data.reverse.dropWhile (· = '/')).reverse⟩

/- ──────────────────────────────────────────────────────────────────────
   Provider registry (`services/providers/__init__.py`)
   ────────────────────────────────────────────────────────────────────── -/

/-- `providers.PROVIDER_NAMES` — all recognised provider keys. -/
def PROVIDER_NAMES : List String :=
  ["ollama", "lm_studio", "localai", "text_generation_webui", "openai",
   "anthropic"]

/-- Python `model_override or cfg.default_model`: `None` and `""` both fall
back to the configured default model. -/
def modelOrDefault (cfg : ProviderConfig) : Option String → String
  | none => cfg.default_model
  | some m => if m = "" then cfg.default_model else m

/-- `providers._build_provider(name, model_override)`.  A raised `ValueError`
is modelled as `Except.error` carrying the message. -/
def build_provider (s : Settings) (name : String) (model_override : Option String) :
    Except String LLMProvider :=
  match lookupA s.llm.providers name with
  | none =>
    .error ("Provider \x27" ++ name ++ "\x27 is not configured in config.yaml")
  | some cfg =>
    let model := modelOrDefault cfg model_override
    let gen := s.llm.generation
    if name = "ollama" then
      .ok { kind := .ollama, provider_key := "", base_url := rstripSlash cfg.base_url,
            model := model, api_key := "", timeout := cfg.timeout,
            generation := gen, organization := "" }
    else if name = "lm_studio" ∨ name = "localai" then
      .ok { kind := .openaiCompatible, provider_key := name,
            base_url := rstripSlash cfg.base_url, model := model,
            api_key := cfg.api_key, timeout := cfg.timeout,
            generation := gen, organization := "" }
    else if name = "openai" then
      .ok { kind := .openai, provider_key := "", base_url := "", model := model,
            api_key := cfg.api_key, timeout := cfg.timeout, generation := gen,
            organization := cfg.organization }
    else if name = "anthropic" then
      .ok { kind := .anthropic, provider_key := "", base_url := "", model := model,
            api_key := cfg.api_key, timeout := cfg.timeout, generation := gen,
            organization := "" }
    else if name = "text_generation_webui" then
      .ok { kind := .textGenWebUI, provider_key := "",
            base_url := rstripSlash cfg.base_url, model := model, api_key := "",
            timeout := cfg.timeout, generation := gen, organization := "" }
    else
      .error ("Unknown provider \x27" ++ name ++ "\x27. Known: " ++
              pyListRepr (sortStrs PROVIDER_NAMES))

/-- The module-level registry singletons of `providers/__init__.py`:
`_active_name`, `_active_model` and `_instance_cache`. -/
structure RegistryState where
  active_name : Option String
  active_model : Option String
  instance_cache : List (String × LLMProvider)
deriving DecidableEq

/-- The registry state at process start. -/
def initRegistry : RegistryState := ⟨none, none, []⟩

/-- The instance-cache key `f"{name}:{model or ''}"`. -/
def cacheKeyOf (name : String) (model : Option String) : String :=
  name ++ ":" ++ model.getD ""

/-- `providers.get_provider()`: return the active provider instance, creating
it lazily; initialises `_active_name` from config on first call.  Returns the
updated registry state alongside the result (an exception leaves the state as
mutated up to the raise). -/
def get_provider (s : Settings) (st : RegistryState) :
    RegistryState × Except String LLMProvider :=
  let name := st.active_name.getD s.llm.default_provider
  let st : RegistryState := { st with active_name := some name }
  let key := cacheKeyOf name st.active_model
  match lookupA st.instance_cache key with
  | some p => (st, .ok p)
  | none =>
    match build_provider s name st.active_model with
    | .error e => (st, .error e)
    | .ok p => ({ st with instance_cache := (key, p) :: st.instance_cache }, .ok p)

/-- `providers.switch_provider(name, model)`: validate the name, eagerly
construct (or fetch from cache) the adapter, then set the active pair. -/
def switch_provider (s : Settings) (st : RegistryState) (name : String)
    (model : Option String) : RegistryState × Except String LLMProvider :=
  if ¬ PROVIDER_NAMES.contains name ∧
      ¬ (s.llm.providers.map Prod.fst).contains name then
    (st, .error ("Unknown provider: \x27" ++ name ++ "\x27"))
  else
    let key := cacheKeyOf name model
    match lookupA st.instance_cache key with
    | some p =>
      ({ st with active_name := some name, active_model := model }, .ok p)
    | none =>
      match build_provider s name model with
      | .error e => (st, .error e)
      | .ok p =>
        ({ active_name := some name, active_model := model,
           instance_cache := (key, p) :: st.instance_cache }, .ok p)

/-- The names reported by `providers.list_providers()` (one row per entry of
the configured `providers` dict). -/
def list_provider_names (s : Settings) : List String :=
  s.llm.providers.map Prod.fst

/-- `routers/providers.py::switch_active_provider` (`POST
/api/providers/switch`): reject names absent from the configured providers
with a 400 whose detail lists the valid names; delegate to `switch_provider`;
wrap its failure in a 500.  An `HTTPException` is modelled as
`Except.error (status, detail)`; success returns the
`{"switched_to": ..., "model": ...}` pair. -/
def switch_active_provider (s : Settings) (st : RegistryState)
    (provider : String) (model : Option String) :
    RegistryState × Except (Nat × String) (String × String) :=
  let all := list_provider_names s
  if ¬ all.contains provider then
    (st, .error (400, "Unknown provider \x27" ++ provider ++
                      "\x27. Available: " ++ pyListRepr (sortStrs all)))
  else
    match switch_provider s st provider model with
    | (st', .error e) =>
      (st', .error (500, "Failed to initialise provider: " ++ e))
    | (st', .ok p) => (st', .ok (provider_name p, active_model p))

/-- The model that `_build_provider` stores for `(name, model_override)`:
the override, or the configured `default_model` when the override is absent
or empty. -/
def resolveModel (s : Settings) (name : String) (model : Option String) :
    String :=
  match lookupA s.llm.providers name with
  | none => ""
  | some cfg => modelOrDefault cfg model

/-- Modelled from the spec: the v2 `llm_service.generate` is not under
`src/` (the file present there is a superseded v1 snapshot that predates the
provider registry).  Per the spec, a generation call dispatches through
`ProviderRegistry.active()` — i.e. `get_provider()` — and the identity it
observes is the obtained adapter's `(provider_name, active_model)` pair. -/
def observed_identity (s : Settings) (st : RegistryState) :
    RegistryState × Except String (String × String) :=
  match get_provider s st with
  | (st', .ok p) => (st', .ok (provider_name p, active_model p))
  | (st', .error e) => (st', .error e)

/- ──────────────────────────────────────────────────────────────────────
   JSON values and `json.loads` (stdlib collaborator of
   `routers/highlights.py::_parse_json_response`)
   ────────────────────────────────────────────────────────────────────── -/

/-- A parsed Python/JSON value. -/
inductive PyVal where
  | obj : List (String × PyVal) → PyVal
  | arr : List PyVal → PyVal
  | str : String → PyVal
  | num : Int → PyVal
  | boolean : Bool → PyVal
  | null : PyVal

/-- Skip JSON whitespace. -/
def skipWs (cs : List Char) : List Char := cs.dropWhile isPySpace

/-- JSON string-escape characters (the subset `\" \\ \/ \n \t \r`; other
escapes make the modelled parser fail — none of the claims involve them). -/
def escChar (e : Char) : Option Char :=
  if e = '"' then some '"'
  else if e = '\\' then some '\\'
  else if e = '/' then some '/'
  else if e = 'n' then some '\n'
  else if e = 't' then some '\t'
  else if e = 'r' then some '\r'
  else none

/-- Parse the body of a JSON string literal (after the opening quote),
returning the contents and the remainder after the closing quote. -/
def parseStrBody : List Char → Option (List Char × List Char)
  | [] => none
  | '"' :: r => some ([], r)
  | '\\' :: e :: r =>
    match escChar e with
    | none => none
    | some c => (parseStrBody r).map (fun p => (c :: p.1, p.2))
  | c :: r => (parseStrBody r).map (fun p => (c :: p.1, p.2))

/-- Digits to a natural number. -/
def digitsToNat (ds : List Char) : Nat :=
  ds.foldl (fun n c => 10 * n + (c.toNat - 48)) 0

/-- Parse a JSON integer (optional minus, then digits).  Modelled from the
spec: `json.loads` is a stdlib collaborator; its numeric grammar is modelled
for integers only, which none of the claims exercise. -/
def parseNum (cs : List Char) : Option (PyVal × List Char) :=
  match cs with
  | '-' :: r =>
    let ds := r.takeWhile Char.isDigit
    if ds = [] then none
    else some (.num (-(digitsToNat ds : Int)), r.dropWhile Char.isDigit)
  | _ =>
    let ds := cs.takeWhile Char.isDigit
    if ds = [] then none
    else some (.num (digitsToNat ds : Int), cs.dropWhile Char.isDigit)

mutual

/-- Parse one JSON value.  `fuel` bounds the recursion depth; `jsonLoads`
supplies `2 * length + 2`, which is ample since every recursive step consumes
at least one input character per two units of fuel. -/
def parseVal : Nat → List Char → Option (PyVal × List Char)
  | 0, _ => none
  | _ + 1, [] => none
  | fuel + 1, c :: rest =>
    if c = 't' then
      match rest with
      | 'r' :: 'u' :: 'e' :: r => some (.boolean true, r)
      | _ => none
    else if c = 'f' then
      match rest with
      | 'a' :: 'l' :: 's' :: 'e' :: r => some (.boolean false, r)
      | _ => none
    else if c = 'n' then
      match rest with
      | 'u' :: 'l' :: 'l' :: r => some (.null, r)
      | _ => none
    else if c = '"' then
      (parseStrBody rest).map (fun p => (.str ⟨p.1⟩, p.2))
    else if c = '[' then
      match skipWs rest with
      | ']' :: r2 => some (.arr [], r2)
      | r2 => (parseArrElems fuel r2).map (fun p => (.arr p.1, p.2))
    else if c = '\x7b' then
      match skipWs rest with
      | '\x7d' :: r2 => some (.obj [], r2)
      | r2 => (parseObjMembers fuel r2).map (fun p => (.obj p.1, p.2))
    else
      parseNum (c :: rest)

/-- Parse the comma-separated elements of a (non-empty) JSON array, up to and
including the closing bracket. -/
def parseArrElems : Nat → List Char → Option (List PyVal × List Char)
  | 0, _ => none
  | fuel + 1, cs =>
    match parseVal fuel (skipWs cs) with
    | none => none
    | some (v, rest) =>
      match skipWs rest with
      | ',' :: r2 =>
        match parseArrElems fuel r2 with
        | none => none
        | some (vs, r3) => some (v :: vs, r3)
      | ']' :: r2 => some ([v], r2)
      | _ => none

/-- Parse the members of a (non-empty) JSON object, up to and including the
closing brace. -/
def parseObjMembers : Nat → List Char → Option (List (String × PyVal) × List Char)
  | 0, _ => none
  | fuel + 1, cs =>
    match skipWs cs with
    | '"' :: r =>
      match parseStrBody r with
      | none => none
      | some (key, r2) =>
        match skipWs r2 with
        | ':' :: r3 =>
          match parseVal fuel (skipWs r3) with
          | none => none
          | some (v, r4) =>
            match skipWs r4 with
            | ',' :: r5 =>
              match parseObjMembers fuel r5 with
              | none => none
              | some (ms, r6) => some ((⟨key⟩, v) :: ms, r6)
            | '\x7d' :: r5 => some ([(⟨key⟩, v)], r5)
            | _ => none
        | _ => none
    | _ => none

end

/-- `json.loads` on a character list: a single JSON value surrounded by
optional whitespace; anything else raises (modelled as `none`). -/
def jsonLoads (cs : List Char) : Option PyVal :=
  match parseVal (2 * cs.length + 2) (skipWs cs) with
  | none => none
  | some (v, rest) => if skipWs rest = [] then some v else none

/- ──────────────────────────────────────────────────────────────────────
   `routers/highlights.py::_parse_json_response`
   ────────────────────────────────────────────────────────────────────── -/

/-- `re.sub(r"```(?:json)?\s*", "", raw)`: delete every occurrence of three
backticks, an optional literal `json`, and any following whitespace.  `fuel`
bounds the scan (any `fuel ≥ cs.length` is enough: every step consumes at
least one character). -/
def stripFencesGo : Nat → List Char → List Char
  | 0, _ => []
  | _ + 1, [] => []
  | fuel + 1, '`' :: '`' :: '`' :: t =>
    let t1 := match t with
      | 'j' :: 's' :: 'o' :: 'n' :: r => r
      | _ => t
    stripFencesGo fuel (t1.dropWhile isPySpace)
  | fuel + 1, c :: t => c :: stripFencesGo fuel t

/-- The fence-deleting substitution applied by `_parse_json_response`. -/
def stripFences (cs : List Char) : List Char := stripFencesGo cs.length cs

/-- Python `str.rstrip("`")`: drop trailing backticks. -/
def rstripBackticks (cs : List Char) : List Char :=
  (cs.reverse.dropWhile (· = '`')).reverse

/-- `re.search(r"\{.*\}", cleaned, re.DOTALL)`: the substring from the first
opening brace to the last closing brace at or after it, if any (leftmost
match start, greedy `.*`). -/
def braceBlock (cs : List Char) : Option (List Char) :=
  let rest := cs.dropWhile (· ≠ '\x7b')
  match rest with
  | [] => none
  | _ :: _ =>
    let rev := rest.reverse.dropWhile (· ≠ '\x7d')
    match rev with
    | [] => none
    | _ :: _ => some rev.reverse

/-- `_parse_json_response(raw)`: strip code fences, try `json.loads`; on
failure try the first `{...}` block — whose own `json.loads` failure
propagates out of the function (modelled as `none`); with no block at all,
return `{"raw": raw}`. -/
def parseJsonResponse (raw : List Char) : Option PyVal :=
  let cleaned := pyStrip (rstripBackticks (pyStrip (stripFences raw)))
  match jsonLoads cleaned with
  | some v => some v
  | none =>
    match braceBlock cleaned with
    | some sub => jsonLoads sub
    | none => some (.obj [("raw", .str ⟨raw⟩)])

/- ──────────────────────────────────────────────────────────────────────
   Cache key and LLM cache (`database.py`)
   ────────────────────────────────────────────────────────────────────── -/

/-- The `AttributeError` raised by `get_settings().llm.ollama`: the v2
`config.LLMConfig` declares no `ollama` attribute (pydantic v2 ignores extra
keys), so the v1-era read in `database.cache_key` fails. -/
def OLLAMA_ATTR_ERROR : String :=
  "AttributeError: \x27LLMConfig\x27 object has no attribute \x27ollama\x27"

/-- `database.cache_key(document_id, task, extra, model)`: `if not model:`
the code resolves the model from `get_settings().llm.ollama.model` — a read
that raises `AttributeError` under the v2 config (`Except.error`); with a
non-empty `model` the SHA-256 hex digest (the parameter `hash`) of the raw
string is returned. -/
def cache_key (hash : String → String) (s : Settings)
    (document_id task extra model : String) : Except String String :=
  if model = "" then
    .error OLLAMA_ATTR_ERROR
  else
    .ok (hash (document_id ++ ":" ++ task ++ ":" ++ model ++ ":" ++ extra))

/-- The payload `/api/ask` builds, caches and returns (`ask.py`). -/
structure AskResult where
  document_id : String
  question : String
  answer : String
  sources_used : Nat
  cached : Bool
deriving DecidableEq

/-- The `llm_cache` table restricted to one task's payload type: an
association list from `cache_key` to the stored result.  `save_cached_result`
uses `INSERT OR REPLACE`; prepending with first-match lookup models that. -/
def CacheState : Type := List (String × AskResult)

/-- `database.get_cached_result(doc_id, task, extra, model)` (the stored
payloads are non-empty dicts, so a router's `if cached:` truthiness test is a
hit exactly when a row exists).  The `cache_key` exception propagates. -/
def get_cached_result {α : Type} (hash : String → String) (s : Settings)
    (st : List (String × α)) (doc_id task extra model : String) :
    Except String (Option α) :=
  match cache_key hash s doc_id task extra model with
  | .error e => .error e
  | .ok key => .ok (lookupA st key)

/-- `database.save_cached_result(doc_id, task, result, extra, model)`; the
`cache_key` exception propagates. -/
def save_cached_result {α : Type} (hash : String → String) (s : Settings)
    (st : List (String × α)) (doc_id task extra model : String) (result : α) :
    Except String (List (String × α)) :=
  match cache_key hash s doc_id task extra model with
  | .error e => .error e
  | .ok key => .ok ((key, result) :: st)

/-- How a request can fail: a raised `HTTPException(status, detail)`, or an
uncaught Python exception (which FastAPI surfaces as a 500). -/
inductive EndpointFailure where
  | http : Nat → String → EndpointFailure
  | exn : String → EndpointFailure
deriving DecidableEq

/- ──────────────────────────────────────────────────────────────────────
   `/api/ask` (`routers/ask.py`)
   ────────────────────────────────────────────────────────────────────── -/

/-- A `documents` row as `_get_ready_doc` reads it. -/
structure Document where
  status : String
deriving DecidableEq

/-- `llm_service.build_qa_prompt(context_chunks, question)`. -/
def build_qa_prompt (context_chunks : List String) (question : String) : String :=
  let context := String.intercalate "\n\n---\n\n" context_chunks
  "Answer the user\x27s question using ONLY the information from the provided context.\nIf the answer is not in the context, say \"I don\x27t have enough information to answer that.\"\n\nCONTEXT:\n\"\"\"\n"
    ++ context ++ "\n\"\"\"\n\nQUESTION: " ++ question ++ "\n\nANSWER:"

/-- `routers/ask.py::ask` — the blocking, cached endpoint.  Explicit inputs
replace the collaborators: `doc` is `db.get_document(document_id)`, `chunks`
is what `retrieve_relevant_chunks(document_id, question)` returns for the
current stores (unchanged between two back-to-back calls), and `gen` is
`llm_service.generate`.  After the readiness checks the endpoint calls
`db.get_cached_result(document_id, "ask", question)` with `model=""`, whose
`cache_key` raises `AttributeError` under the v2 config — modelled as
`EndpointFailure.exn`, leaving the store untouched; the rest of the body is
kept faithfully although it is unreachable. -/
def ask (hash : String → String) (s : Settings) (gen : String → String)
    (doc : Option Document) (chunks : List String) (st : CacheState)
    (document_id question : String) :
    Except EndpointFailure AskResult × CacheState :=
  match doc with
  | none => (.error (.http 404 "Document not found"), st)
  | some d =>
    if d.status ≠ "ready" then
      (.error (.http 409 ("Document is not ready yet (status: " ++ d.status ++ ")")),
       st)
    else
      match get_cached_result hash s st document_id "ask" question "" with
      | .error e => (.error (.exn e), st)
      | .ok (some cached) => (.ok { cached with cached := true }, st)
      | .ok none =>
        match chunks with
        | [] => (.error (.http 422 "No text chunks available for this document"), st)
        | _ :: _ =>
          let prompt := build_qa_prompt chunks question
          let answer := gen prompt
          let result : AskResult :=
            { document_id := document_id, question := question,
              answer := pyStripS answer, sources_used := chunks.length,
              cached := false }
          match save_cached_result hash s st document_id "ask" question "" result with
          | .error e => (.error (.exn e), st)
          | .ok st' => (.ok result, st')

/- ──────────────────────────────────────────────────────────────────────
   Truncation in `/api/summarize` and `/api/highlights`
   ────────────────────────────────────────────────────────────────────── -/

/-- `MAX_CHARS` — identical constant in `summarize.py` and `highlights.py`. -/
def MAX_CHARS : Nat := 24000

/-- The truncation marker inserted for the excised middle. -/
def TRUNC_MARKER : String := "\n\n[... střed dokumentu zkrácen ...]\n\n"

/-- The truncation step both routers inline verbatim: over budget, keep the
first and last `MAX_CHARS // 2` characters around the marker and set the
flag; otherwise pass the text through.  (`text[-half:]` is the last `half`
characters since `len(text) > MAX_CHARS > half`.) -/
def truncateForLLM (text : List Char) : List Char × Bool :=
  if MAX_CHARS < text.length then
    (text.take (MAX_CHARS / 2) ++ TRUNC_MARKER.data ++
       text.drop (text.length - MAX_CHARS / 2), true)
  else
    (text, false)

/-- `summarize.py`'s copy of the truncation step. -/
def summarize_truncate (text : List Char) : List Char × Bool := truncateForLLM text

/-- `highlights.py`'s copy of the truncation step. -/
def highlights_truncate (text : List Char) : List Char × Bool := truncateForLLM text

/-- The result payload of `/api/summarize`. -/
structure SummarizeResult where
  document_id : String
  style : String
  summary : String
  truncated : Bool
  cached : Bool
deriving DecidableEq

/-- `routers/summarize.py::summarize` — the whole endpoint body after
`db.get_document`: readiness checks, then the cache lookup (whose
`cache_key`, called with `model=""`, raises `AttributeError` under the v2
config — `EndpointFailure.exn` — before the full text is ever read), then
the truncation, generation and store steps, kept faithfully although
unreachable.  `text` is `db.get_full_text(document_id)`; `llm` abstracts
`llm_service.generate(build_summary_prompt(·, style, language))` (the v2
prompt builder is not under `src/`; no claim depends on it). -/
def summarize (hash : String → String) (s : Settings) (llm : List Char → String)
    (doc : Option Document) (text : String)
    (st : List (String × SummarizeResult)) (document_id style language : String) :
    Except EndpointFailure SummarizeResult × List (String × SummarizeResult) :=
  match doc with
  | none => (.error (.http 404 "Document not found"), st)
  | some d =>
    if d.status ≠ "ready" then
      (.error (.http 409 ("Document is not ready yet (status: " ++ d.status ++ ")")),
       st)
    else
      let cache_extra := style ++ ":" ++ language
      match get_cached_result hash s st document_id "summarize" cache_extra "" with
      | .error e => (.error (.exn e), st)
      | .ok (some cached) => (.ok { cached with cached := true }, st)
      | .ok none =>
        if text = "" then
          (.error (.http 422 "No text extracted from document"), st)
        else
          let t := summarize_truncate text.data
          let summary_text := llm t.1
          let result : SummarizeResult :=
            { document_id := document_id, style := style,
              summary := pyStripS summary_text, truncated := t.2, cached := false }
          match save_cached_result hash s st document_id "summarize" cache_extra ""
              result with
          | .error e => (.error (.exn e), st)
          | .ok st' => (.ok result, st')

/-- The result payload of `/api/highlights` (payload fields as parsed
values). -/
structure HighlightsResult where
  document_id : String
  key_concepts : PyVal
  key_sentences : PyVal
  topics : PyVal
  truncated : Bool
  cached : Bool

/-- `routers/highlights.py::highlights` — the whole endpoint body after
`db.get_document`: readiness checks, then the cache lookup whose `cache_key`
(called with `model=""`) raises `AttributeError` under the v2 config
(`EndpointFailure.exn`), then — unreachably but faithfully — truncation,
generation, `_parse_json_response` recovery (whose own escape, or
`parsed.get` on a non-dict, is also an uncaught exception) and the store
step.  `llm` abstracts
`llm_service.generate(build_highlights_prompt(·, language))`. -/
def highlights (hash : String → String) (s : Settings) (llm : List Char → String)
    (doc : Option Document) (text : String)
    (st : List (String × HighlightsResult)) (document_id language : String) :
    Except EndpointFailure HighlightsResult × List (String × HighlightsResult) :=
  match doc with
  | none => (.error (.http 404 "Document not found"), st)
  | some d =>
    if d.status ≠ "ready" then
      (.error (.http 409 ("Document is not ready yet (status: " ++ d.status ++ ")")),
       st)
    else
      match get_cached_result hash s st document_id "highlights" language "" with
      | .error e => (.error (.exn e), st)
      | .ok (some cached) => (.ok { cached with cached := true }, st)
      | .ok none =>
        if text = "" then
          (.error (.http 422 "No text extracted from document"), st)
        else
          let t := highlights_truncate text.data
          let raw := llm t.1
          match parseJsonResponse raw.data with
          | none => (.error (.exn "json.JSONDecodeError"), st)
          | some (.obj kvs) =>
            let result : HighlightsResult :=
              { document_id := document_id,
                key_concepts := (lookupA kvs "key_concepts").getD (.arr []),
                key_sentences := (lookupA kvs "key_sentences").getD (.arr []),
                topics := (lookupA kvs "topics").getD (.arr []),
                truncated := t.2, cached := false }
            match save_cached_result hash s st document_id "highlights" language ""
                result with
            | .error e => (.error (.exn e), st)
            | .ok st' => (.ok result, st')
          | some _ => (.error (.exn "AttributeError: list-typed parse has no get"), st)

/-- The cache-key computation `/api/ask` attempts, with the registry state
in scope during the request made explicit: `ask` passes `model=""`, so
`cache_key` goes to resolve the static config field `llm.ollama.model` —
which does not exist under the v2 config — and raises before producing any
key.  The computation reads nothing from `st` either way. -/
def ask_cache_key_attempt (hash : String → String) (s : Settings)
    (st : RegistryState) (document_id question : String) : Except String String :=
  cache_key hash s document_id "ask" question ""

/- ──────────────────────────────────────────────────────────────────────
   Concrete configuration fixture (`config._default_providers`)
   ────────────────────────────────────────────────────────────────────── -/

/-- `config._default_providers()` — the built-in provider definitions, in
dict insertion order. -/
def default_providers : List (String × ProviderConfig) :=
  [("ollama",
    { enabled := true, base_url := "http://localhost:11434", api_key := "",
      default_model := "llama3.2:latest", timeout := 120, organization := "" }),
   ("lm_studio",
    { enabled := false, base_url := "http://localhost:1234/v1", api_key := "",
      default_model := "local-model", timeout := 120, organization := "" }),
   ("text_generation_webui",
    { enabled := false, base_url := "http://localhost:5000", api_key := "",
      default_model := "default", timeout := 120, organization := "" }),
   ("localai",
    { enabled := false, base_url := "http://localhost:8080/v1", api_key := "",
      default_model := "gpt-3.5-turbo", timeout := 120, organization := "" }),
   ("openai",
    { enabled := false, base_url := "", api_key := "",
      default_model := "gpt-4o", timeout := 60, organization := "" }),
   ("anthropic",
    { enabled := false, base_url := "", api_key := "",
      default_model := "claude-sonnet-4-5-20250514", timeout := 60,
      organization := "" })]

/-- A concrete `Settings` value: the defaults of the v2 `config.py`. -/
def defaultSettings : Settings :=
  { llm := { default_provider := "ollama",
             generation := { temperature := 0.2, max_tokens := 4096, top_p := 0.9 },
             providers := default_providers },
    rag := { chunk_size := 512, chunk_overlap := 64, top_k := 5,
             embedding_model := "all-MiniLM-L6-v2" } }

/- ──────────────────────────────────────────────────────────────────────
   Remaining definitions used by the theorems and witnesses
   ────────────────────────────────────────────────────────────────────── -/

/-- The instance cache is coherent at one `(name, model)` pair: if the cache
holds an instance under that pair's key, it is the instance
`_build_provider` yields for the pair.  (Every cache write in
`get_provider`/`switch_provider` stores exactly that, so this holds of every
reachable state at every key.) -/
def coherentAt (s : Settings) (st : RegistryState) (name : String)
    (model : Option String) : Prop :=
  match lookupA st.instance_cache (cacheKeyOf name model) with
  | none => True
  | some q => build_provider s name model = .ok q

instance : IsTotal (String × ℝ) descBySnd :=
  ⟨fun a b => le_total b.2 a.2⟩

instance : IsTrans (String × ℝ) descBySnd :=
  ⟨fun _ _ _ h1 h2 => le_trans h2 h1⟩

/-- Fixture: the adapter the registry builds for `("ollama", None)` under the
default configuration. -/
def wOllama : LLMProvider :=
  { kind := .ollama, provider_key := "", base_url := "http://localhost:11434",
    model := "llama3.2:latest", api_key := "", timeout := 120,
    generation := { temperature := 0.2, max_tokens := 4096, top_p := 0.9 },
    organization := "" }

/-- Fixture: the registry state after a first `get_provider()` call on the
default configuration. -/
def wSt1 : RegistryState :=
  ⟨some "ollama", none, [("ollama:", wOllama)]⟩

/-- Fixture: the adapter built for `("lm_studio", "m1")` under the default
configuration. -/
def wLmStudio : LLMProvider :=
  { kind := .openaiCompatible, provider_key := "lm_studio",
    base_url := "http://localhost:1234/v1", model := "m1", api_key := "",
    timeout := 120,
    generation := { temperature := 0.2, max_tokens := 4096, top_p := 0.9 },
    organization := "" }

/-- Fixture: the registry state after switching `wSt1` to
`("lm_studio", "m1")`. -/
def wSt2 : RegistryState :=
  ⟨some "lm_studio", some "m1", [("lm_studio:m1", wLmStudio), ("ollama:", wOllama)]⟩

/-- Fixture: three stored chunks, in index order. -/
def wChunks : List ChunkRow := [⟨0, "A"⟩, ⟨1, "B"⟩, ⟨2, "C"⟩]

/- ══════════════════════════════════════════════════════════════════════
   Theorems
   ══════════════════════════════════════════════════════════════════════ -/

/- ── C2: chunker reconstruction ──────────────────────────────────────── -/

theorem splitSentencesGo_ne_nil (fuel : Nat) :
    ∀ acc cs, splitSentencesGo fuel acc cs ≠ [] := by
  induction fuel with
  | zero => intro acc cs; simp [splitSentencesGo]
  | succ n ih =>
    intro acc cs
    cases cs with
    | nil => simp [splitSentencesGo]
    | cons c rest =>
      simp only [splitSentencesGo]
      split
      · simp
      · exact ih _ _

theorem splitStepI_cur_ne_nil (chunk_size overlap : Nat) (st : SplitStI)
    (s : List Char) : (splitStepI chunk_size overlap st s).cur ≠ [] := by
  simp only [splitStepI]
  split <;> simp

theorem foldl_splitStepI_cur_ne_nil (chunk_size overlap : Nat) :
    ∀ (l : List (List Char)) (st : SplitStI), l ≠ [] →
      (l.foldl (splitStepI chunk_size overlap) st).cur ≠ [] := by
  intro l
  induction l with
  | nil => intro st h; exact absurd rfl h
  | cons x t ih =>
    intro st _
    cases t with
    | nil => exact splitStepI_cur_ne_nil _ _ _ _
    | cons y t' => exact ih _ (by simp)

/-- Projection of the instrumented state onto the plain one. -/
theorem splitStep_proj (chunk_size overlap : Nat) (b : SplitStI) (s : List Char) :
    splitStep chunk_size overlap ⟨b.chunks.map (fun p => joinSp p.1), b.cur, b.curLen⟩ s
      = ⟨(splitStepI chunk_size overlap b s).chunks.map (fun p => joinSp p.1),
         (splitStepI chunk_size overlap b s).cur,
         (splitStepI chunk_size overlap b s).curLen⟩ := by
  simp only [splitStep, splitStepI]
  split
  · simp
  · simp

theorem foldl_splitStep_proj (chunk_size overlap : Nat) :
    ∀ (l : List (List Char)) (b : SplitStI),
      l.foldl (splitStep chunk_size overlap) ⟨b.chunks.map (fun p => joinSp p.1), b.cur, b.curLen⟩
        = ⟨(l.foldl (splitStepI chunk_size overlap) b).chunks.map (fun p => joinSp p.1),
           (l.foldl (splitStepI chunk_size overlap) b).cur,
           (l.foldl (splitStepI chunk_size overlap) b).curLen⟩ := by
  intro l
  induction l with
  | nil => intro b; rfl
  | cons x t ih =>
    intro b
    simp only [List.foldl_cons]
    rw [splitStep_proj, ih]

theorem reconstr_append_single (l : List (List (List Char) × Nat))
    (p : List (List Char) × Nat) :
    reconstr (l ++ [p]) = reconstr l ++ p.1.drop p.2 := by
  simp [reconstr]

/-- The loop invariant of the instrumented fold: what has been appended to
`chunks` (overlaps dropped) followed by the new part of `current_chunk` is
exactly the sentences consumed so far. -/
theorem foldl_splitStepI_inv (chunk_size overlap : Nat) :
    ∀ (l : List (List Char)) (st : SplitStI) (processed : List (List Char)),
      reconstr st.chunks ++ st.cur.drop st.curOv = processed →
      st.curOv ≤ st.cur.length →
      reconstr (l.foldl (splitStepI chunk_size overlap) st).chunks
          ++ ((l.foldl (splitStepI chunk_size overlap) st).cur.drop
                (l.foldl (splitStepI chunk_size overlap) st).curOv)
        = processed ++ l
      ∧ (l.foldl (splitStepI chunk_size overlap) st).curOv
          ≤ (l.foldl (splitStepI chunk_size overlap) st).cur.length := by
  intro l
  induction l with
  | nil => intro st processed h1 h2; simpa using ⟨h1, h2⟩
  | cons s t ih =>
    intro st processed h1 h2
    simp only [List.foldl_cons]
    have hstep :
        reconstr (splitStepI chunk_size overlap st s).chunks
            ++ ((splitStepI chunk_size overlap st s).cur.drop
                  (splitStepI chunk_size overlap st s).curOv)
          = processed ++ [s]
        ∧ (splitStepI chunk_size overlap st s).curOv
            ≤ (splitStepI chunk_size overlap st s).cur.length := by
      simp only [splitStepI]
      split
      · constructor
        · rw [reconstr_append_single]
          simp only [List.drop_left]
          rw [← h1]
        · simp
      · constructor
        · rw [List.drop_append_of_le_length h2, ← List.append_assoc, h1]
        · calc st.curOv ≤ st.cur.length := h2
            _ ≤ (st.cur ++ [s]).length := by simp
    have := ih (splitStepI chunk_size overlap st s) (processed ++ [s])
      hstep.1 hstep.2
    simpa [List.append_assoc] using this

/-- C2 counterexample: the claim "concatenating the segments of
`split_text(T, size, overlap)` with the overlapping tails removed reproduces
T exactly, for every T" is false.  For `T = "a.  b."` (two spaces after the
first sentence) the function returns the single segment `"a. b."`; with one
segment there is no overlap to remove, and the concatenation differs from T
because sentence splitting discarded the exact inter-sentence whitespace. -/
theorem split_text_counterexample :
    split_text "a.  b.".data 500 50 = ["a. b.".data]
    ∧ joinSp (reconstr (splitTextInstr "a.  b.".data 500 50)) ≠ "a.  b.".data
    ∧ "a. b.".data ≠ "a.  b.".data := by
  refine ⟨by decide, by decide, by decide⟩

/-- C2 (amended): for every non-empty text and all chunk sizes and overlaps,
the segments of `split_text` — each the `' '`-join of its sentences, as the
instrumented splitter records and the first conjunct certifies — concatenate,
after dropping each segment's carried-over overlap sentences, to exactly the
sentence sequence of the *stripped, whitespace-normalised* text
`' '.join(re.split(r'(?<=[.!?])\s+', text.strip()))`; reconstruction is
therefore lossless up to that normalisation, and exact for texts already in
normal form (third conjunct). -/
theorem split_text_reconstructs_normalized (text : List Char)
    (chunk_size overlap : Nat) (h : text ≠ []) :
    split_text text chunk_size overlap
        = (splitTextInstr text chunk_size overlap).map (fun p => joinSp p.1)
    ∧ reconstr (splitTextInstr text chunk_size overlap)
        = splitSentences (pyStrip text)
    ∧ (joinSp (splitSentences (pyStrip text)) = text →
        joinSp (reconstr (splitTextInstr text chunk_size overlap)) = text) := by
  have hsent : splitSentences (pyStrip text) ≠ [] := splitSentencesGo_ne_nil _ _ _
  have hcur : (List.foldl (splitStepI chunk_size overlap) ⟨[], [], 0, 0⟩
      (splitSentences (pyStrip text))).cur ≠ [] :=
    foldl_splitStepI_cur_ne_nil _ _ _ _ hsent
  have hinv := foldl_splitStepI_inv chunk_size overlap
    (splitSentences (pyStrip text)) ⟨[], [], 0, 0⟩ [] (by simp [reconstr]) (by simp)
  have hrec : reconstr (splitTextInstr text chunk_size overlap)
      = splitSentences (pyStrip text) := by
    simp only [splitTextInstr]
    rw [if_pos hcur, reconstr_append_single]
    simpa using hinv.1
  refine ⟨?_, hrec, fun hnorm => by rw [hrec]; exact hnorm⟩
  simp only [split_text, splitTextInstr, if_neg h]
  have hproj := foldl_splitStep_proj chunk_size overlap
    (splitSentences (pyStrip text)) ⟨[], [], 0, 0⟩
  simp only [List.map_nil] at hproj
  rw [hproj]
  rw [if_pos hcur, if_pos hcur]
  rw [if_neg (by simp)]
  simp

/-- C2 amended-claim witness at a concrete instance: four sentences, chunk
size 10, overlap 5 (which makes three segments, the middle one carrying one
overlap sentence). -/
theorem split_text_reconstructs_normalized_witness :
    "One. Two. Three. Four.".data ≠ ([] : List Char)
    ∧ (split_text "One. Two. Three. Four.".data 10 5
        = (splitTextInstr "One. Two. Three. Four.".data 10 5).map (fun p => joinSp p.1)
      ∧ reconstr (splitTextInstr "One. Two. Three. Four.".data 10 5)
          = splitSentences (pyStrip "One. Two. Three. Four.".data)
      ∧ (joinSp (splitSentences (pyStrip "One. Two. Three. Four.".data))
            = "One. Two. Three. Four.".data →
          joinSp (reconstr (splitTextInstr "One. Two. Three. Four.".data 10 5))
            = "One. Two. Three. Four.".data)) :=
  ⟨by decide, split_text_reconstructs_normalized _ 10 5 (by decide)⟩

/- ── C9: cosine similarity algebra ───────────────────────────────────── -/

theorem zipWith_mul_comm (a b : List ℝ) :
    List.zipWith (· * ·) a b = List.zipWith (· * ·) b a := by
  induction a generalizing b with
  | nil => cases b <;> rfl
  | cons x xs ih =>
    cases b with
    | nil => rfl
    | cons y ys => simp [mul_comm, ih]

theorem zipWith_mul_self (a : List ℝ) :
    List.zipWith (· * ·) a a = a.map (fun x => x * x) := by
  induction a with
  | nil => rfl
  | cons x xs ih => simp [ih]

theorem sumSq_nonneg (a : List ℝ) : 0 ≤ sumSq a := by
  refine List.sum_nonneg ?_
  intro x hx
  rcases List.mem_map.mp hx with ⟨y, _, rfl⟩
  exact mul_self_nonneg y

theorem sumSq_pos (a : List ℝ) (h : ∃ x ∈ a, x ≠ 0) : 0 < sumSq a := by
  induction a with
  | nil => rcases h with ⟨x, hx, _⟩; cases hx
  | cons y t ih =>
    have hcons : sumSq (y :: t) = y * y + sumSq t := by simp [sumSq]
    rcases h with ⟨x, hx, hx0⟩
    rcases List.mem_cons.mp hx with rfl | hxt
    · have : 0 < x * x := mul_self_pos.mpr hx0
      rw [hcons]
      exact add_pos_of_pos_of_nonneg this (sumSq_nonneg t)
    · have := ih ⟨x, hxt, hx0⟩
      rw [hcons]
      exact add_pos_of_nonneg_of_pos (mul_self_nonneg y) this

theorem sumSq_eq_zero (a : List ℝ) (h : ∀ x ∈ a, x = 0) : sumSq a = 0 := by
  induction a with
  | nil => rfl
  | cons y t ih =>
    have hy := h y (by simp)
    have ht := ih (fun x hx => h x (List.mem_cons_of_mem _ hx))
    simp [sumSq] at ht ⊢
    simp [hy, ht]

/-- C9: `_cosine` is symmetric; `_cosine(a, a) = 1` for every vector with a
non-zero entry; and `_cosine(a, b) = 0` whenever either vector is all zeros
(zero norm). -/
theorem cosine_props :
    (∀ a b : List ℝ, _cosine a b = _cosine b a)
    ∧ (∀ a : List ℝ, (∃ x ∈ a, x ≠ 0) → _cosine a a = 1)
    ∧ (∀ a b : List ℝ, ((∀ x ∈ a, x = 0) ∨ (∀ x ∈ b, x = 0)) →
        _cosine a b = 0) := by
  refine ⟨?_, ?_, ?_⟩
  · intro a b
    simp only [_cosine]
    rw [zipWith_mul_comm]
    by_cases h1 : Real.sqrt (sumSq a) = 0 <;>
      by_cases h2 : Real.sqrt (sumSq b) = 0
    · rw [if_pos (Or.inl h1), if_pos (Or.inl h2)]
    · rw [if_pos (Or.inl h1), if_pos (Or.inr h1)]
    · rw [if_pos (Or.inr h2), if_pos (Or.inl h2)]
    · rw [if_neg (by tauto), if_neg (by tauto), mul_comm]
  · intro a ha
    have hpos : 0 < sumSq a := sumSq_pos a ha
    have hne : Real.sqrt (sumSq a) ≠ 0 :=
      ne_of_gt (Real.sqrt_pos.mpr hpos)
    simp only [_cosine]
    rw [if_neg (by tauto), zipWith_mul_self]
    have : (a.map (fun x => x * x)).sum = sumSq a := rfl
    rw [this, Real.mul_self_sqrt (le_of_lt hpos)]
    exact div_self (ne_of_gt hpos)
  · intro a b h
    simp only [_cosine]
    rcases h with h | h
    · rw [if_pos (Or.inl (by rw [sumSq_eq_zero a h, Real.sqrt_zero]))]
    · rw [if_pos (Or.inr (by rw [sumSq_eq_zero b h, Real.sqrt_zero]))]

/-- C9 witness: the three parts of `cosine_props` at concrete vectors, with
the non-zero-entry and all-zero hypotheses discharged. -/
theorem cosine_props_witness :
    _cosine [1, 2] [3, 4] = _cosine [3, 4] [1, 2]
    ∧ (∃ x ∈ [(1 : ℝ)], x ≠ 0)
    ∧ _cosine [(1 : ℝ)] [1] = 1
    ∧ (∀ x ∈ [(0 : ℝ)], x = 0)
    ∧ _cosine [(0 : ℝ)] [7] = 0 :=
  ⟨cosine_props.1 [1, 2] [3, 4],
   ⟨1, by simp, one_ne_zero⟩,
   cosine_props.2.1 [1] ⟨1, by simp, one_ne_zero⟩,
   by intro x hx; simpa using hx,
   cosine_props.2.2 [0] [7] (Or.inl (by intro x hx; simpa using hx))⟩

/- ── C4: positional fallback without embeddings ──────────────────────── -/

/-- C4: when a document's stored chunks have no embeddings, or the query-time
embedding is unavailable, `retrieve_relevant_chunks` returns exactly the
first `top_k` chunk contents in ascending chunk-index order (the stored
order), for any query.  (`top_k = 0` falls back to the configured default
because of Python's `top_k or cfg.top_k`, hence the `0 < k` hypothesis.) -/
theorem retrieve_fallback (cfg : RAGConfig) (db : DocStore)
    (qEmb : Option (List ℝ)) (k : Nat) (hk : 0 < k)
    (h : db.embRows = [] ∨ qEmb = none) :
    retrieve_relevant_chunks cfg db qEmb (some k)
      = (db.chunks.take k).map (·.content) := by
  have hres : resolveTopK cfg (some k) = k := by
    simp [resolveTopK, Nat.pos_iff_ne_zero.mp hk]
  rcases h with h | h
  · simp only [retrieve_relevant_chunks, hres, h]
  · cases hrows : db.embRows with
    | nil => simp only [retrieve_relevant_chunks, hres, hrows]
    | cons r rs => simp only [retrieve_relevant_chunks, hres, hrows, h]

/-- C4 witness (concrete scenario B): three stored chunks, no embeddings,
`top_k = 2` returns the chunks at indices 0 and 1 in that order, for an
arbitrary question (whose embedding is never computed when no rows exist). -/
theorem retrieve_fallback_witness :
    0 < 2
    ∧ (DocStore.mk wChunks []).embRows = []
    ∧ retrieve_relevant_chunks defaultSettings.rag ⟨wChunks, []⟩ none (some 2)
        = ["A", "B"] :=
  ⟨by decide, rfl,
   (retrieve_fallback defaultSettings.rag ⟨wChunks, []⟩ none 2 (by decide)
      (Or.inl rfl)).trans rfl⟩

/- ── C5: similarity ranking is sorted and stable ─────────────────────── -/

theorem filter_orderedInsert (x : String × ℝ) (sc : ℝ) :
    ∀ l : List (String × ℝ),
      (List.orderedInsert descBySnd x l).filter (fun p => decide (p.2 = sc))
        = ((x :: l).filter (fun p => decide (p.2 = sc))) := by
  intro l
  induction l with
  | nil => rfl
  | cons y ys ih =>
    by_cases hxy : descBySnd x y
    · simp [List.orderedInsert, hxy]
    · have hlt : x.2 < y.2 := lt_of_not_le hxy
      simp only [List.orderedInsert, if_neg hxy]
      by_cases hy : y.2 = sc
      · have hx : ¬ x.2 = sc := by
          intro hx; exact absurd (hx ▸ hy ▸ hlt) (lt_irrefl _)
        simp [List.filter_cons, hy, hx, ih]
      · simp [List.filter_cons, hy, ih]

theorem filter_insertionSort (sc : ℝ) :
    ∀ l : List (String × ℝ),
      (List.insertionSort descBySnd l).filter (fun p => decide (p.2 = sc))
        = l.filter (fun p => decide (p.2 = sc)) := by
  intro l
  induction l with
  | nil => rfl
  | cons x xs ih =>
    simp only [List.insertionSort]
    rw [filter_orderedInsert]
    simp only [List.filter_cons]
    rw [ih]

/-- C5: with embeddings stored and a query embedding available,
`retrieve_relevant_chunks` returns the texts of the scored list sorted by
cosine score descending (first conjunct: the code path is exactly the stable
sort, truncation and projection); the sorted list is weakly descending in
score (second conjunct); and it is stable: for every score value the
equal-scored entries appear in exactly their stored order, which is
ascending chunk index since `get_embeddings_for_doc` orders by chunk index
(third conjunct). -/
theorem retrieve_sorted_stable (cfg : RAGConfig) (chunks : List ChunkRow)
    (r : Nat × String × List ℝ) (rs : List (Nat × String × List ℝ))
    (qv : List ℝ) (top_k : Option Nat) :
    retrieve_relevant_chunks cfg ⟨chunks, r :: rs⟩ (some qv) top_k
        = ((List.insertionSort descBySnd (scoredOf qv (r :: rs))).take
            (resolveTopK cfg top_k)).map Prod.fst
    ∧ (List.insertionSort descBySnd (scoredOf qv (r :: rs))).Pairwise descBySnd
    ∧ (∀ sc : ℝ,
        (List.insertionSort descBySnd (scoredOf qv (r :: rs))).filter
            (fun p => decide (p.2 = sc))
          = (scoredOf qv (r :: rs)).filter (fun p => decide (p.2 = sc))) := by
  refine ⟨rfl, ?_, fun sc => filter_insertionSort sc _⟩
  exact List.sorted_insertionSort descBySnd (scoredOf qv (r :: rs))

/- ── C7: `_parse_json_response` is not total — the recovery re-parse can
     propagate an exception (code bug) ─────────────────────────────────── -/

/-- C7, evaluated at the failing input: on `raw = "{bad}"` the first
`json.loads` fails, the `{...}` search finds `"{bad}"` itself, and the
second, unguarded `json.loads` raises out of `_parse_json_response`
(first conjunct, `none` = propagated exception) — the claimed `{"raw": raw}`
fallback is not reached.  The fence-equivalence half of the claim does hold:
a ```` ```json ```` -fenced response parses to the same object as its
unwrapped equivalent (second and third conjuncts). -/
theorem parse_json_response_bug_and_fences :
    parseJsonResponse "\x7bbad\x7d".data = none
    ∧ parseJsonResponse "```json\n\x7b\"topics\": [\"ai\"]\x7d\n```".data
        = parseJsonResponse "\x7b\"topics\": [\"ai\"]\x7d".data
    ∧ parseJsonResponse "\x7b\"topics\": [\"ai\"]\x7d".data
        = some (.obj [("topics", .arr [.str "ai"])]) :=
  ⟨rfl, rfl, rfl⟩

/- ── C8: the truncation path of summarize/highlights is never reached ── -/

/-- C8, evaluated at the failing input: for every ready document — whatever
the stored text, the cache contents, the style/language or the model — both
the summarize and the highlights endpoints die with the `AttributeError`
raised inside `cache_key` (the `get_cached_result` call precedes
`get_full_text`), so no execution ever feeds the model a truncated text or
returns a `truncated` flag (first two conjuncts).  The inline truncation
block itself, were it reachable, does match the claimed slicing: over budget
it keeps the first and last `MAX_CHARS // 2` characters around the marker
with the flag set, and a text within budget passes through with the flag
clear (last two conjuncts, on the dead `summarize_truncate` /
`highlights_truncate` blocks). -/
theorem summarize_highlights_crash_before_truncation
    (hash : String → String) (s : Settings) (llm : List Char → String)
    (text : String) (st : List (String × SummarizeResult))
    (st' : List (String × HighlightsResult)) (doc_id style lang : String) :
    summarize hash s llm (some ⟨"ready"⟩) text st doc_id style lang
        = (.error (.exn OLLAMA_ATTR_ERROR), st)
    ∧ highlights hash s llm (some ⟨"ready"⟩) text st' doc_id lang
        = (.error (.exn OLLAMA_ATTR_ERROR), st')
    ∧ summarize_truncate (List.replicate 24001 'a')
        = ((List.replicate 24001 'a').take (MAX_CHARS / 2) ++ TRUNC_MARKER.data ++
            (List.replicate 24001 'a').drop
              ((List.replicate 24001 'a').length - MAX_CHARS / 2), true)
    ∧ highlights_truncate ['a'] = (['a'], false) := by
  refine ⟨rfl, rfl, ?_, rfl⟩
  show truncateForLLM _ = _
  unfold truncateForLLM
  rw [if_pos (by rw [List.length_replicate]; decide)]

/- ── C3: /api/ask crashes before the cache is ever consulted ────────── -/

/-- C3, evaluated at the failing input: for every ready document — whatever
the chunks, the cache state, the digest function or the generator — the
blocking `/api/ask` endpoint returns the uncaught `AttributeError` from
`cache_key` (the empty-model resolution reads the nonexistent
`llm.ollama` config attribute) and leaves the store untouched.  The repeated
identical request is this very same call on the unchanged store, so it fails
identically: the claimed `cached:false` / `cached:true` pair never occurs. -/
theorem ask_crashes_at_cache_key (hash : String → String) (s : Settings)
    (gen : String → String) (chunks : List String) (st : CacheState)
    (document_id question : String) :
    ask hash s gen (some ⟨"ready"⟩) chunks st document_id question
      = (.error (.exn OLLAMA_ATTR_ERROR), st) :=
  rfl

/- ── C10: no ask cache key is ever computed ──────────────────────────── -/

/-- C10, evaluated at the failing input: the blocking `/api/ask` endpoint
never computes a cache key at all — with the empty `model` argument,
`cache_key` goes to resolve the claimed static configuration field
`llm.ollama.model`, which the v2 `LLMConfig` does not declare, and raises
`AttributeError` before producing a key (first conjunct).  The attempted
computation does read nothing from the registry — it fails identically in
every registry state, before and after any switch (second conjunct) — but
the claim's premise, a key resolved from a static config field, is false of
the program. -/
theorem ask_cache_key_never_computed (hash : String → String) (s : Settings)
    (st st' : RegistryState) (document_id question : String) :
    ask_cache_key_attempt hash s st document_id question
        = .error OLLAMA_ATTR_ERROR
    ∧ ask_cache_key_attempt hash s st document_id question
        = ask_cache_key_attempt hash s st' document_id question :=
  ⟨rfl, rfl⟩

/- ── C6: unknown provider name at switch ─────────────────────────────── -/

theorem leadMatch_append : ∀ (n r : List Char), leadMatch n (n ++ r) = true := by
  intro n
  induction n with
  | nil => intro r; rfl
  | cons a as ih => intro r; simp [leadMatch, ih]

theorem hasSub_nil : ∀ l : List Char, hasSub [] l = true := by
  intro l
  cases l with
  | nil => rfl
  | cons c r => simp [hasSub, leadMatch]

theorem hasSub_cons (n : List Char) (c : Char) (t : List Char)
    (h : hasSub n t = true) : hasSub n (c :: t) = true := by
  simp [hasSub, h]

theorem hasSub_self_append (n post : List Char) : hasSub n (n ++ post) = true := by
  cases n with
  | nil => exact hasSub_nil post
  | cons m ms =>
    have hl : leadMatch (m :: ms) (m :: (ms ++ post)) = true :=
      leadMatch_append (m :: ms) post
    simp [hasSub, hl]

theorem hasSub_parts : ∀ (pre n post : List Char), hasSub n (pre ++ n ++ post) = true := by
  intro pre
  induction pre with
  | nil => intro n post; exact hasSub_self_append n post
  | cons c pre' ih => intro n post; exact hasSub_cons _ c _ (ih n post)

theorem strContainsB_of_parts (pre n post : String) :
    strContainsB (pre ++ n ++ post) n = true := by
  unfold strContainsB
  rw [String.data_append, String.data_append]
  exact hasSub_parts pre.data n.data post.data

theorem commaSep_decomp : ∀ (l : List (List Char)) (x : List Char), x ∈ l →
    ∃ pre post, commaSep l = pre ++ x ++ post := by
  intro l
  induction l with
  | nil => intro x hx; cases hx
  | cons y t ih =>
    intro x hx
    rcases List.mem_cons.mp hx with rfl | hxt
    · cases t with
      | nil => exact ⟨[], [], by simp [commaSep]⟩
      | cons z t' =>
        exact ⟨[], ", ".data ++ commaSep (z :: t'),
          by simp [commaSep, List.append_assoc]⟩
    · cases t with
      | nil => cases hxt
      | cons z t' =>
        rcases ih x hxt with ⟨pre, post, hp⟩
        exact ⟨y ++ ", ".data ++ pre, post,
          by simp [commaSep, hp, List.append_assoc]⟩

theorem pyListRepr_decomp (l : List String) (p : String) (hp : p ∈ l) :
    ∃ pre post, (pyListRepr l).data = pre ++ p.data ++ post := by
  have hq : pyQuote p ∈ l.map pyQuote := List.mem_map_of_mem _ hp
  rcases commaSep_decomp _ _ hq with ⟨pre, post, hcs⟩
  refine ⟨'[' :: pre ++ ['\x27'], ['\x27'] ++ post ++ [']'], ?_⟩
  show '[' :: commaSep (l.map pyQuote) ++ [']'] = _
  rw [hcs]
  simp [pyQuote, List.append_assoc]

theorem strContainsB_with_repr (msgPre : String) (l : List String) (p : String)
    (hp : p ∈ l) : strContainsB (msgPre ++ pyListRepr l) p = true := by
  rcases pyListRepr_decomp l p hp with ⟨pre, post, hd⟩
  unfold strContainsB
  rw [String.data_append, hd]
  have := hasSub_parts (msgPre.data ++ pre) p.data post
  simpa [List.append_assoc] using this

theorem mem_insStr_self (x : String) : ∀ l, x ∈ insStr x l := by
  intro l
  induction l with
  | nil => simp [insStr]
  | cons y ys ih =>
    simp only [insStr]
    split
    · simp
    · simpa using Or.inr ih

theorem mem_insStr_of_mem (x y : String) : ∀ l, y ∈ l → y ∈ insStr x l := by
  intro l
  induction l with
  | nil => intro h; cases h
  | cons z zs ih =>
    intro h
    simp only [insStr]
    split
    · simpa using Or.inr h
    · rcases List.mem_cons.mp h with rfl | hz
      · simp
      · simpa using Or.inr (ih hz)

theorem mem_sortStrs (y : String) : ∀ l, y ∈ l → y ∈ sortStrs l := by
  intro l
  induction l with
  | nil => intro h; cases h
  | cons x t ih =>
    intro h
    rcases List.mem_cons.mp h with rfl | ht
    · exact mem_insStr_self y (sortStrs t)
    · exact mem_insStr_of_mem x y (sortStrs t) (ih ht)

/-- C6 counterexample: `switch_provider` rejects the unknown name `"nope"`
with the message `Unknown provider: 'nope'`, which names the requested value
but does NOT list the set of valid provider names ("ollama" — or any other —
is not a substring; the conjunction over all of `PROVIDER_NAMES` fails), so
the claim as stated is false of the registry-level `switch_provider`. -/
theorem switch_unknown_counterexample :
    switch_provider defaultSettings initRegistry "nope" none
        = (initRegistry, .error "Unknown provider: \x27nope\x27")
    ∧ strContainsB "Unknown provider: \x27nope\x27" "nope" = true
    ∧ strContainsB "Unknown provider: \x27nope\x27" "ollama" = false
    ∧ (PROVIDER_NAMES.all fun n =>
        strContainsB "Unknown provider: \x27nope\x27" n) = false :=
  ⟨rfl, rfl, rfl, rfl⟩

/-- C6 (amended): for a name that is neither known nor configured,
`switch_provider` fails with a configuration error that names the requested
value only — the set of valid names is NOT in the registry-level message —
and leaves the registry state (hence the active provider/model selection)
unchanged; the set of valid (configured) provider names is listed one level
up, by the HTTP router's 400 response, whose detail contains the requested
value and every configured provider name. -/
theorem switch_unknown_rejected (s : Settings) (st : RegistryState)
    (name : String) (model : Option String)
    (h1 : PROVIDER_NAMES.contains name = false)
    (h2 : (s.llm.providers.map Prod.fst).contains name = false) :
    switch_provider s st name model
        = (st, .error ("Unknown provider: \x27" ++ name ++ "\x27"))
    ∧ strContainsB ("Unknown provider: \x27" ++ name ++ "\x27") name = true
    ∧ switch_active_provider s st name model
        = (st, .error (400, "Unknown provider \x27" ++ name ++
            "\x27. Available: " ++ pyListRepr (sortStrs (list_provider_names s))))
    ∧ ∀ p ∈ list_provider_names s,
        strContainsB ("Unknown provider \x27" ++ name ++ "\x27. Available: "
          ++ pyListRepr (sortStrs (list_provider_names s))) p = true := by
  have hm1 : name ∉ PROVIDER_NAMES := by simpa using h1
  have hm2 : ∀ x, (name, x) ∉ s.llm.providers := by
    intro x hx
    have hm : name ∈ s.llm.providers.map Prod.fst := List.mem_map_of_mem Prod.fst hx
    simp [hm] at h2
  refine ⟨?_, strContainsB_of_parts _ _ _, ?_, ?_⟩
  · unfold switch_provider
    rw [if_pos ⟨by simpa using hm1, by simpa using hm2⟩]
  · unfold switch_active_provider
    rw [if_pos (by simp [list_provider_names]; exact fun x => hm2 x)]
  · intro p hp
    exact strContainsB_with_repr _ _ _
      (mem_sortStrs p (list_provider_names s) hp)

/-- C6 amended-claim witness: the unknown name `"nope"` against the default
configuration and the initial registry state. -/
theorem switch_unknown_rejected_witness :
    PROVIDER_NAMES.contains "nope" = false
    ∧ (defaultSettings.llm.providers.map Prod.fst).contains "nope" = false
    ∧ (switch_provider defaultSettings initRegistry "nope" none
          = (initRegistry, .error ("Unknown provider: \x27" ++ "nope" ++ "\x27"))
      ∧ strContainsB ("Unknown provider: \x27" ++ "nope" ++ "\x27") "nope" = true
      ∧ switch_active_provider defaultSettings initRegistry "nope" none
          = (initRegistry, .error (400, "Unknown provider \x27" ++ "nope" ++
              "\x27. Available: "
              ++ pyListRepr (sortStrs (list_provider_names defaultSettings))))
      ∧ ∀ p ∈ list_provider_names defaultSettings,
          strContainsB ("Unknown provider \x27" ++ "nope" ++ "\x27. Available: "
            ++ pyListRepr (sortStrs (list_provider_names defaultSettings))) p
            = true) :=
  ⟨rfl, rfl, switch_unknown_rejected defaultSettings initRegistry "nope" none rfl rfl⟩

/- ── C1: switching changes the identity seen by the next generation call ── -/

theorem build_provider_identity (s : Settings) (n : String) (m : Option String)
    (p : LLMProvider) (h : build_provider s n m = .ok p) :
    provider_name p = n ∧ active_model p = resolveModel s n m := by
  unfold build_provider at h
  cases hl : lookupA s.llm.providers n with
  | none => rw [hl] at h; exact absurd h (by simp)
  | some cfg =>
    rw [hl] at h
    have hres : resolveModel s n m = modelOrDefault cfg m := by
      simp [resolveModel, hl]
    split_ifs at h with c1 c2 c3 c4 c5
    · rw [Except.ok.injEq] at h
      subst h
      refine ⟨by simp [provider_name, c1], ?_⟩
      show modelOrDefault cfg m = resolveModel s n m
      rw [hres]
    · rw [Except.ok.injEq] at h
      subst h
      refine ⟨by simp [provider_name], ?_⟩
      show modelOrDefault cfg m = resolveModel s n m
      rw [hres]
    · rw [Except.ok.injEq] at h
      subst h
      refine ⟨by simp [provider_name, c3], ?_⟩
      show modelOrDefault cfg m = resolveModel s n m
      rw [hres]
    · rw [Except.ok.injEq] at h
      subst h
      refine ⟨by simp [provider_name, c4], ?_⟩
      show modelOrDefault cfg m = resolveModel s n m
      rw [hres]
    · rw [Except.ok.injEq] at h
      subst h
      refine ⟨by simp [provider_name, c5], ?_⟩
      show modelOrDefault cfg m = resolveModel s n m
      rw [hres]

theorem lookupA_cons_preserve {α : Type} (cache : List (String × α)) (key : String)
    (p : α) (hnone : lookupA cache key = none) :
    ∀ k q, lookupA cache k = some q → lookupA ((key, p) :: cache) k = some q := by
  intro k q h
  by_cases hk : key = k
  · subst hk; rw [hnone] at h; cases h
  · simp [lookupA, hk, h]

/-- C1: when `switch_provider(name, model)` succeeds from a coherent registry
state, the identity `(provider_name, active_model)` observed by the next
generation call — which obtains its adapter through `get_provider()` — is
exactly the switched-to provider with the resolved model (conjuncts 1–3);
the switch only adds to the instance cache, never touching existing adapter
instances (conjunct 4); and the adapter `p₀` obtained by a call *before* the
switch carries, unchanged, the identity of the previously active selection —
adapters are immutable values whose identity properties read only their own
construction-time fields, so the switch cannot retroactively affect them
(conjuncts 5–6). -/
theorem switch_provider_identity (s : Settings) (st₀ st₁ st₂ : RegistryState)
    (p₀ p : LLMProvider) (name : String) (model : Option String)
    (hcoh₀ : coherentAt s st₀ (st₀.active_name.getD s.llm.default_provider)
      st₀.active_model)
    (hget : get_provider s st₀ = (st₁, .ok p₀))
    (hcoh₁ : coherentAt s st₁ name model)
    (hsw : switch_provider s st₁ name model = (st₂, .ok p)) :
    observed_identity s st₂ = (st₂, .ok (name, resolveModel s name model))
    ∧ provider_name p = name
    ∧ active_model p = resolveModel s name model
    ∧ (∀ k q, lookupA st₁.instance_cache k = some q →
        lookupA st₂.instance_cache k = some q)
    ∧ provider_name p₀ = st₀.active_name.getD s.llm.default_provider
    ∧ active_model p₀
        = resolveModel s (st₀.active_name.getD s.llm.default_provider)
            st₀.active_model := by
  -- the pre-switch adapter's identity, from the first call and coherence
  have hp₀ : provider_name p₀ = st₀.active_name.getD s.llm.default_provider
      ∧ active_model p₀
          = resolveModel s (st₀.active_name.getD s.llm.default_provider)
              st₀.active_model := by
    unfold get_provider at hget
    dsimp only at hget
    unfold coherentAt at hcoh₀
    cases hlk₀ : lookupA st₀.instance_cache
        (cacheKeyOf (st₀.active_name.getD s.llm.default_provider)
          st₀.active_model) with
    | some q =>
      rw [hlk₀] at hget hcoh₀
      rw [Prod.mk.injEq, Except.ok.injEq] at hget
      exact hget.2 ▸ build_provider_identity s _ _ q hcoh₀
    | none =>
      rw [hlk₀] at hget
      cases hb : build_provider s (st₀.active_name.getD s.llm.default_provider)
          st₀.active_model with
      | error e => rw [hb] at hget; simp at hget
      | ok q =>
        rw [hb] at hget
        rw [Prod.mk.injEq, Except.ok.injEq] at hget
        exact hget.2 ▸ build_provider_identity s _ _ q hb
  -- the switch itself
  unfold switch_provider at hsw
  unfold coherentAt at hcoh₁
  by_cases hguard : ¬ PROVIDER_NAMES.contains name ∧
      ¬ (s.llm.providers.map Prod.fst).contains name
  · rw [if_pos hguard] at hsw
    rw [Prod.mk.injEq] at hsw
    exact absurd hsw.2 (by simp)
  · rw [if_neg hguard] at hsw
    dsimp only at hsw
    cases hlk : lookupA st₁.instance_cache (cacheKeyOf name model) with
    | some q =>
      rw [hlk] at hsw hcoh₁
      rw [Prod.mk.injEq, Except.ok.injEq] at hsw
      obtain ⟨hst, hp⟩ := hsw
      have hid := build_provider_identity s name model q hcoh₁
      subst hp
      refine ⟨?_, hid.1, hid.2, ?_, hp₀.1, hp₀.2⟩
      · rw [← hst]
        simp [observed_identity, get_provider, hlk, hid.1, hid.2]
      · intro k q' hq'
        rw [← hst]
        exact hq'
    | none =>
      rw [hlk] at hsw
      cases hb : build_provider s name model with
      | error e => rw [hb] at hsw; rw [Prod.mk.injEq] at hsw; exact absurd hsw.2 (by simp)
      | ok q =>
        rw [hb] at hsw
        rw [Prod.mk.injEq, Except.ok.injEq] at hsw
        obtain ⟨hst, hp⟩ := hsw
        have hid := build_provider_identity s name model q hb
        subst hp
        refine ⟨?_, hid.1, hid.2, ?_, hp₀.1, hp₀.2⟩
        · rw [← hst]
          simp [observed_identity, get_provider, lookupA, hid.1, hid.2]
        · intro k q' hq'
          rw [← hst]
          exact lookupA_cons_preserve st₁.instance_cache _ q hlk k q' hq'

/-- C1 witness: from a fresh registry under the default configuration, the
first call obtains the ollama adapter; switching to `("lm_studio", "m1")`
succeeds, the next call observes identity `("lm_studio", resolved model)`,
and the previously obtained ollama adapter keeps its original identity. -/
theorem switch_provider_identity_witness :
    coherentAt defaultSettings initRegistry
        (initRegistry.active_name.getD defaultSettings.llm.default_provider)
        initRegistry.active_model
    ∧ get_provider defaultSettings initRegistry = (wSt1, .ok wOllama)
    ∧ coherentAt defaultSettings wSt1 "lm_studio" (some "m1")
    ∧ switch_provider defaultSettings wSt1 "lm_studio" (some "m1")
        = (wSt2, .ok wLmStudio)
    ∧ (observed_identity defaultSettings wSt2
          = (wSt2, .ok ("lm_studio",
              resolveModel defaultSettings "lm_studio" (some "m1")))
      ∧ provider_name wLmStudio = "lm_studio"
      ∧ active_model wLmStudio
          = resolveModel defaultSettings "lm_studio" (some "m1")
      ∧ (∀ k q, lookupA wSt1.instance_cache k = some q →
          lookupA wSt2.instance_cache k = some q)
      ∧ provider_name wOllama
          = initRegistry.active_name.getD defaultSettings.llm.default_provider
      ∧ active_model wOllama
          = resolveModel defaultSettings
              (initRegistry.active_name.getD defaultSettings.llm.default_provider)
              initRegistry.active_model) :=
  ⟨True.intro, rfl, True.intro, rfl,
   switch_provider_identity defaultSettings initRegistry wSt1 wSt2
     wOllama wLmStudio "lm_studio" (some "m1") True.intro rfl True.intro rfl⟩
